import Mathlib

/-
Verification of the search/pagination/detail-view controller of the
Movie Nexus page (src/src/app/movie_main/page.tsx).

The page component holds React state

  search : string, movies : OmdbMovie[], selectedMovie : any | null,
  loadingMovies : boolean, loadingDetails : boolean,
  error : string | null, page : number, totalResults : number

and four operations: fetchMovies (search), fetchMovieDetails
(detail lookup), loadMore (pagination) and the close handlers that set
selectedMovie to null.  We embed the state as a record and each operation
as a function from the state (plus the network outcome, made explicit)
to the new state together with the request it issued, if any.
-/

namespace MovieNexus

/-- A movie list item as returned by the search endpoint
(type OmdbMovie in the source). -/
structure OmdbMovie where
  Title : String
  Year : String
  imdbID : String
  Poster : String
deriving DecidableEq, Repr

/-- The search response (type OmdbSearchResponse in the source).
Optional fields of the TS type become Option; Response is an arbitrary
string at runtime, the code only compares it against the string False. -/
structure OmdbSearchResponse where
  Search : Option (List OmdbMovie)
  totalResults : Option String
  Response : String
  Error : Option String
deriving DecidableEq, Repr

/-- The detail response.  In the source it is untyped (any); the code
reads Response and Error, and stores the whole record as the selection.
Fields used by the rendering are kept as optional strings. -/
structure DetailData where
  Response : String
  Error : Option String
  Title : Option String
  Year : Option String
  Runtime : Option String
  Genre : Option String
  Plot : Option String
  Actors : Option String
  Director : Option String
  imdbRating : Option String
  Poster : Option String
deriving DecidableEq, Repr

/-- Outcome of an awaited fetch + json parse: either a parsed response,
or a thrown exception (network failure or parse failure), which the
source catches in its catch block. -/
inductive NetOutcome (α : Type) where
  | ok (data : α)
  | thrown
deriving DecidableEq, Repr

/-- The React state of the MoviePage component.  totalResults is a JS
number set only by parseInt, so it is an integer or NaN; we model it as
Option Int with none standing for NaN. -/
structure MState where
  search : String
  movies : List OmdbMovie
  selectedMovie : Option DetailData
  loadingMovies : Bool
  loadingDetails : Bool
  error : Option String
  page : Nat
  totalResults : Option Int
deriving DecidableEq, Repr

/-- The initial state of the component (the useState initializers). -/
def initialState : MState :=
  { search := ""
    movies := []
    selectedMovie := none
    loadingMovies := false
    loadingDetails := false
    error := none
    page := 1
    totalResults := some 0 }

/-- The search input onChange handler: setSearch(e.target.value). -/
def setSearch (s : MState) (q : String) : MState :=
  { s with search := q }

/-- The guard !search.trim() of fetchMovies: the trimmed string is
empty exactly when every character of the query is whitespace. -/
def isBlank (q : String) : Bool :=
  q.data.all Char.isWhitespace

/-- JS (x || d) on an optional string: d when the field is undefined or
the empty string (both falsy), x otherwise. -/
def jsOrString (x : Option String) (d : String) : String :=
  match x with
  | none => d
  | some v => if v = "" then d else v

/-- Digit list to the natural number it denotes (most significant first). -/
def digitsToNat (cs : List Char) : Nat :=
  cs.foldl (fun a c => a * 10 + (c.toNat - 48)) 0

/-- JS parseInt(str, 10): skip leading whitespace, optional sign, then
the longest run of decimal digits; NaN (here none) when no digit follows. -/
def parseIntJs (s : String) : Option Int :=
  let cs := s.data.dropWhile Char.isWhitespace
  let signRest : Int × List Char :=
    match cs with
    | '-' :: r => (-1, r)
    | '+' :: r => (1, r)
    | r => (1, r)
  let ds := signRest.2.takeWhile Char.isDigit
  if ds.isEmpty then none
  else some (signRest.1 * (digitsToNat ds : Int))

/-- JS (n >= t) where t may be NaN: any comparison with NaN is false. -/
def jsGeNum (n : Nat) (t : Option Int) : Bool :=
  match t with
  | none => false
  | some v => decide ((n : Int) ≥ v)

/-- The fixed placeholder image reference used when no poster is available. -/
def placeholderPoster : String :=
  "https://via.placeholder.com/400x600?text=No+Poster"

/-- The poster helper posterFor: poster && poster !== N/A ? poster :
placeholder.  undefined and the empty string are falsy, the sentinel
string is compared case-sensitively. -/
def posterFor (poster : Option String) : String :=
  match poster with
  | none => placeholderPoster
  | some p => if p ≠ "" ∧ p ≠ "N/A" then p else placeholderPoster

/-- A search request as issued by fetchMovies: the query text
interpolated into the URL and the page parameter.  (The access key is a
fixed configuration string and carries no state, so it is omitted.) -/
structure SearchRequest where
  query : String
  page : Nat
deriving DecidableEq, Repr

/-- A detail-lookup request as issued by fetchMovieDetails. -/
structure DetailRequest where
  id : String
deriving DecidableEq, Repr

/-- fetchMovies(pageParam, append).  Returns the new state and the
request issued (none when the blank-query guard returns early).
The branches follow the source: early return on blank trimmed query;
set loadingMovies and clear error; on Response False set error from the
provider (fallback No results) and reset movies and totalResults; else
replace or append the returned items, parse totalResults and record the
page; on a thrown exception set the generic network error message; in
all cases finally clear loadingMovies. -/
def fetchMovies (s : MState) (pageParam : Nat) (append : Bool)
    (outcome : NetOutcome OmdbSearchResponse) : MState × Option SearchRequest :=
  if isBlank s.search then (s, none)
  else
    let s1 := { s with loadingMovies := true, error := none }
    let s2 :=
      match outcome with
      | .thrown =>
          { s1 with error := some "Failed to fetch movies. Check your network or API key." }
      | .ok data =>
          if data.Response = "False" then
            { s1 with error := some (jsOrString data.Error "No results")
                      movies := []
                      totalResults := some 0 }
          else
            { s1 with movies := if append then s1.movies ++ data.Search.getD []
                                else data.Search.getD []
                      totalResults := parseIntJs (jsOrString data.totalResults "0")
                      page := pageParam }
    ({ s2 with loadingMovies := false }, some ⟨s.search, pageParam⟩)

/-- fetchMovieDetails(id).  Returns the new state and the request issued
(none when the empty-id guard returns early).  On Response False set
error from the provider (fallback message) and clear the selection; on
success store the whole record as the selection; on a thrown exception
set the generic message; finally clear loadingDetails. -/
def fetchMovieDetails (s : MState) (id : String)
    (outcome : NetOutcome DetailData) : MState × Option DetailRequest :=
  if id = "" then (s, none)
  else
    let s1 := { s with loadingDetails := true, error := none }
    let s2 :=
      match outcome with
      | .thrown =>
          { s1 with error := some "Failed to fetch movie details." }
      | .ok data =>
          if data.Response = "False" then
            { s1 with error := some (jsOrString data.Error "Failed to load movie details.")
                      selectedMovie := none }
          else
            { s1 with selectedMovie := some data }
    ({ s2 with loadingDetails := false }, some ⟨id⟩)

/-- The next page number loadMore computes (const next = page + 1),
evaluated before its guard. -/
def loadMoreNext (s : MState) : Nat := s.page + 1

/-- loadMore(): return early when movies.length >= totalResults
(a JS comparison, false against NaN), otherwise fetchMovies(next, true). -/
def loadMore (s : MState) (outcome : NetOutcome OmdbSearchResponse) :
    MState × Option SearchRequest :=
  let next := loadMoreNext s
  if jsGeNum s.movies.length s.totalResults then (s, none)
  else fetchMovies s next true outcome

/-- closeDetails: setSelectedMovie(null), the shared behavior of the
close button, the overlay background click and the Escape key handler. -/
def closeDetails (s : MState) : MState :=
  { s with selectedMovie := none }

/-- The onClick handler of the explicit close control. -/
def closeButtonClick (s : MState) : MState :=
  { s with selectedMovie := none }

/-- The onClick handler of the modal overlay background (the inner
content div stops propagation, so only the background reaches it). -/
def overlayBackgroundClick (s : MState) : MState :=
  { s with selectedMovie := none }

/-- The window keydown handler: setSelectedMovie(null) when the key is
Escape, nothing otherwise. -/
def escapeKeyHandler (key : String) (s : MState) : MState :=
  if key = "Escape" then { s with selectedMovie := none } else s

/-! ## Theorems -/

/-- C1: for every failed search response (the provider answers with
Response False), the result collection is reset to empty and the
total-result-count to zero, regardless of the prior state, the page
parameter and the append flag; the error message is set to the
provider message, or the fallback No results when it is absent or empty. -/
theorem failed_search_resets_results (s : MState) (pageParam : Nat) (append : Bool)
    (resp : OmdbSearchResponse) (hq : isBlank s.search = false)
    (hf : resp.Response = "False") :
    let s' := (fetchMovies s pageParam append (.ok resp)).1
    s'.movies = [] ∧ s'.totalResults = some 0 ∧
    s'.error = some (jsOrString resp.Error "No results") := by
  simp [fetchMovies, hq, hf]

/-- Witness for C1: a concrete failed response against a state holding
two prior pages, with append true, ends with no movies and total 0. -/
theorem failed_search_resets_results_witness :
    let m : OmdbMovie := ⟨"A", "2001", "tt1", "p"⟩
    let s : MState := ⟨"batman", [m, m], none, false, false, none, 2, some 50⟩
    let resp : OmdbSearchResponse := ⟨none, none, "False", some "Movie not found!"⟩
    let s' := (fetchMovies s 3 true (.ok resp)).1
    s'.movies = [] ∧ s'.totalResults = some 0 ∧
    s'.error = some (jsOrString resp.Error "No results") :=
  failed_search_resets_results _ 3 true _ (by decide) (by decide)

/-- C2: for every failed detail-lookup response of fetchMovieDetails,
the current selection is cleared to null and the error message is set
to the provider message (or the fixed fallback), regardless of which
detail record was previously selected. -/
theorem failed_details_clears_selection (s : MState) (id : String)
    (data : DetailData) (hid : id ≠ "") (hf : data.Response = "False") :
    let s' := (fetchMovieDetails s id (.ok data)).1
    s'.selectedMovie = none ∧
    s'.error = some (jsOrString data.Error "Failed to load movie details.") := by
  simp [fetchMovieDetails, hid, hf]

/-- Witness for C2: a failed lookup while a stale detail record was
selected clears the selection and sets the provider message. -/
theorem failed_details_clears_selection_witness :
    let d : DetailData := ⟨"True", none, some "Old", none, none, none, none, none, none, none, none⟩
    let s : MState := ⟨"q", [], some d, false, false, none, 1, some 0⟩
    let bad : DetailData := ⟨"False", some "Incorrect IMDb ID.", none, none, none, none, none, none, none, none, none⟩
    let s' := (fetchMovieDetails s "badid" (.ok bad)).1
    s'.selectedMovie = none ∧
    s'.error = some (jsOrString bad.Error "Failed to load movie details.") :=
  failed_details_clears_selection _ "badid" _ (by decide) (by decide)

/-- C3: for every non-blank query and every successful search response,
with append false the result collection becomes exactly the returned
items (absent Search meaning no items) and the recorded page equals the
page fetched; with append true the collection becomes the prior
collection followed by the returned items in order; the total-result
count is updated by parsing the totalResults field of the response. -/
theorem successful_search_updates (s : MState) (pageParam : Nat) (append : Bool)
    (resp : OmdbSearchResponse) (hq : isBlank s.search = false)
    (hs : resp.Response ≠ "False") :
    let s' := (fetchMovies s pageParam append (.ok resp)).1
    s'.movies = (if append then s.movies ++ resp.Search.getD []
                 else resp.Search.getD []) ∧
    s'.page = pageParam ∧
    s'.totalResults = parseIntJs (jsOrString resp.totalResults "0") := by
  simp [fetchMovies, hq, hs]

/-- Witness for C3: a first search (page 1, append false) replaces a
prior collection with exactly the returned items and sets page to 1;
evaluated at a concrete state and response. -/
theorem successful_search_updates_witness :
    let old : OmdbMovie := ⟨"Old", "1990", "tt0", "p0"⟩
    let m1 : OmdbMovie := ⟨"Batman", "1989", "tt0096895", "p1"⟩
    let m2 : OmdbMovie := ⟨"Batman Begins", "2005", "tt0372784", "p2"⟩
    let s : MState := ⟨"batman", [old], none, false, false, some "x", 7, some 1⟩
    let resp : OmdbSearchResponse := ⟨some [m1, m2], some "50", "True", none⟩
    let s' := (fetchMovies s 1 false (.ok resp)).1
    s'.movies = (if false then s.movies ++ resp.Search.getD [] else resp.Search.getD []) ∧
    s'.page = 1 ∧
    s'.totalResults = parseIntJs (jsOrString resp.totalResults "0") :=
  successful_search_updates _ 1 false _ (by decide) (by decide)

/-- C5: for every query that is blank after trimming whitespace,
fetchMovies is a no-op: no request is issued and the whole state,
every field included, is returned unchanged. -/
theorem blank_query_noop (s : MState) (pageParam : Nat) (append : Bool)
    (outcome : NetOutcome OmdbSearchResponse) (hq : isBlank s.search = true) :
    fetchMovies s pageParam append outcome = (s, none) := by
  simp [fetchMovies, hq]

/-- Witness for C5: a whitespace-only query leaves a populated state
untouched and issues no request. -/
theorem blank_query_noop_witness :
    let m : OmdbMovie := ⟨"A", "2001", "tt1", "p"⟩
    let s : MState := ⟨"   ", [m], none, false, false, some "err", 3, some 9⟩
    fetchMovies s 1 false (.ok ⟨some [], some "3", "True", none⟩) = (s, none) :=
  blank_query_noop _ 1 false _ (by decide)

/-- C6: the poster-resolution helper returns the fixed placeholder for
undefined, the empty string and exactly the case-sensitive sentinel
N/A, and returns every other non-empty input unchanged (so the
lowercase variant of the sentinel passes through untouched). -/
theorem posterFor_spec :
    posterFor none = placeholderPoster ∧
    posterFor (some "") = placeholderPoster ∧
    posterFor (some "N/A") = placeholderPoster ∧
    ∀ p, p ≠ "" → p ≠ "N/A" → posterFor (some p) = p := by
  refine ⟨rfl, by decide, by decide, ?_⟩
  intro p h1 h2
  simp [posterFor, h1, h2]

/-- Witness for C6: the lowercase string n/a is not the sentinel and is
returned unchanged. -/
theorem posterFor_spec_witness : posterFor (some "n/a") = "n/a" :=
  posterFor_spec.2.2.2 "n/a" (by decide) (by decide)

/-- C4 counterexample: the claim adds the precondition that a previous
successful search produced at least one item, but the code guard is
only movies.length >= totalResults.  Starting from the initial state
with query a, a successful response carrying an empty item list and
totalResults 3 leaves zero accumulated items; the claim then requires
loadMore to be a no-op, yet loadMore issues a request for page 2 and
changes the state. -/
theorem loadMore_empty_collection_counterexample :
    let s0 := setSearch initialState "a"
    let resp : OmdbSearchResponse := ⟨some [], some "3", "True", none⟩
    let s1 := (fetchMovies s0 1 false (.ok resp)).1
    s1.movies = [] ∧
    (loadMore s1 (.ok resp)).2 = some ⟨"a", 2⟩ ∧
    (loadMore s1 (.ok resp)).1 ≠ s1 := by decide

/-- C4 amended: loadMore is a no-op (no request issued, no state
change) exactly when the JS comparison accumulated-item-count >=
total-result-count holds (false against a NaN total); otherwise it
computes next page = current page + 1 and invokes search with append
true, and on a successful response with a non-blank query this appends
the returned items after the existing collection, dropping and
duplicating nothing, with the request issued for page + 1. -/
theorem loadMore_spec (s : MState) (outcome : NetOutcome OmdbSearchResponse) :
    (jsGeNum s.movies.length s.totalResults = true → loadMore s outcome = (s, none)) ∧
    (jsGeNum s.movies.length s.totalResults = false →
      loadMore s outcome = fetchMovies s (s.page + 1) true outcome) ∧
    (∀ resp, outcome = .ok resp →
      jsGeNum s.movies.length s.totalResults = false →
      isBlank s.search = false → resp.Response ≠ "False" →
      (loadMore s outcome).1.movies = s.movies ++ resp.Search.getD [] ∧
      (loadMore s outcome).2 = some ⟨s.search, s.page + 1⟩) := by
  refine ⟨fun hg => ?_, fun hg => ?_, fun resp ho hg hq hs => ?_⟩
  · simp [loadMore, hg]
  · simp [loadMore, loadMoreNext, hg]
  · subst ho
    simp [loadMore, loadMoreNext, hg, fetchMovies, hq, hs]

/-- Witness for C4 amended: with one accumulated item out of one total,
loadMore leaves the state alone and issues nothing; with one item out
of three and a successful page-2 response, it issues the request for
page 2 and appends the new item after the old one. -/
theorem loadMore_spec_witness :
    let m1 : OmdbMovie := ⟨"A", "2001", "tt1", "p1"⟩
    let m2 : OmdbMovie := ⟨"B", "2002", "tt2", "p2"⟩
    let sFull : MState := ⟨"batman", [m1], none, false, false, none, 1, some 1⟩
    let sMore : MState := ⟨"batman", [m1], none, false, false, none, 1, some 3⟩
    let resp : OmdbSearchResponse := ⟨some [m2], some "3", "True", none⟩
    loadMore sFull (.ok resp) = (sFull, none) ∧
    (loadMore sMore (.ok resp)).1.movies = sMore.movies ++ resp.Search.getD [] ∧
    (loadMore sMore (.ok resp)).2 = some ⟨"batman", 2⟩ := by
  intro m1 m2 sFull sMore resp
  exact ⟨(loadMore_spec sFull (.ok resp)).1 (by decide),
         (loadMore_spec sMore (.ok resp)).2.2 resp rfl (by decide) (by decide) (by decide)⟩

/-- C7: whenever fetchMovies passes its blank-query guard it ends with
loadingMovies false, and whenever fetchMovieDetails passes its empty-id
guard it ends with loadingDetails false, for every outcome: success,
empty result, provider-reported failure, or a thrown exception during
the call or the response parsing. -/
theorem loading_flags_cleared (s : MState) (pageParam : Nat) (append : Bool)
    (o : NetOutcome OmdbSearchResponse) (id : String) (od : NetOutcome DetailData)
    (hq : isBlank s.search = false) (hid : id ≠ "") :
    (fetchMovies s pageParam append o).1.loadingMovies = false ∧
    (fetchMovieDetails s id od).1.loadingDetails = false := by
  constructor
  · cases o with
    | ok data => by_cases hf : data.Response = "False" <;> simp [fetchMovies, hq, hf]
    | thrown => simp [fetchMovies, hq]
  · cases od with
    | ok data => by_cases hf : data.Response = "False" <;> simp [fetchMovieDetails, hid, hf]
    | thrown => simp [fetchMovieDetails, hid]

/-- Witness for C7: both calls hit the thrown-exception path at a
concrete state and still come back with their loading flags cleared. -/
theorem loading_flags_cleared_witness :
    let s : MState := ⟨"batman", [], none, false, false, none, 1, some 0⟩
    (fetchMovies s 1 false .thrown).1.loadingMovies = false ∧
    (fetchMovieDetails s "tt0111161" .thrown).1.loadingDetails = false := by
  intro s
  exact loading_flags_cleared s 1 false .thrown "tt0111161" .thrown (by decide) (by decide)

/-- C8: closeDetails sets the selection to null unconditionally and is
idempotent, and the explicit close control, the overlay background
click and the Escape key handler all perform exactly this state change. -/
theorem closeDetails_spec (s : MState) :
    (closeDetails s).selectedMovie = none ∧
    closeDetails (closeDetails s) = closeDetails s ∧
    closeButtonClick s = closeDetails s ∧
    overlayBackgroundClick s = closeDetails s ∧
    escapeKeyHandler "Escape" s = closeDetails s := by
  refine ⟨rfl, rfl, rfl, rfl, ?_⟩
  simp [escapeKeyHandler, closeDetails]

/-- C9: on a provider-reported failed search response the recorded page
number is left unchanged, so the next-page value loadMore computes
afterwards is the pre-failure page plus one. -/
theorem failed_search_preserves_page (s : MState) (pageParam : Nat) (append : Bool)
    (resp : OmdbSearchResponse) (hq : isBlank s.search = false)
    (hf : resp.Response = "False") :
    let s' := (fetchMovies s pageParam append (.ok resp)).1
    s'.page = s.page ∧ loadMoreNext s' = s.page + 1 := by
  simp [fetchMovies, hq, hf, loadMoreNext]

/-- Witness for C9: a failure while fetching page 4 of a state sitting
on page 3 leaves the page at 3, and the next page computed is 4. -/
theorem failed_search_preserves_page_witness :
    let s : MState := ⟨"batman", [⟨"A", "2001", "tt1", "p"⟩], none, false, false, none, 3, some 50⟩
    let resp : OmdbSearchResponse := ⟨none, none, "False", some "Too many results."⟩
    let s' := (fetchMovies s 4 true (.ok resp)).1
    s'.page = s.page ∧ loadMoreNext s' = s.page + 1 := by
  intro s resp
  exact failed_search_preserves_page s 4 true resp (by decide) (by decide)

/-- C10: fetchMovies takes no query argument and always issues its
request for the query text held in state at the moment of the call; in
particular, after the user edits the query text, loadMore issues its
append request for the edited text at page + 1, not for the query that
produced the existing collection. -/
theorem search_uses_state_query (s : MState) (pageParam : Nat) (append : Bool)
    (o : NetOutcome OmdbSearchResponse) (q : String)
    (hq : isBlank s.search = false)
    (hg : jsGeNum s.movies.length s.totalResults = false)
    (hq2 : isBlank q = false) :
    (fetchMovies s pageParam append o).2 = some ⟨s.search, pageParam⟩ ∧
    (loadMore (setSearch s q) o).2 = some ⟨q, s.page + 1⟩ := by
  constructor
  · cases o with
    | ok data => by_cases hf : data.Response = "False" <;> simp [fetchMovies, hq, hf]
    | thrown => simp [fetchMovies, hq]
  · have hreq : (fetchMovies (setSearch s q) (s.page + 1) true o).2 = some ⟨q, s.page + 1⟩ := by
      cases o with
      | ok data => by_cases hf : data.Response = "False" <;> simp [fetchMovies, setSearch, hq2, hf]
      | thrown => simp [fetchMovies, setSearch, hq2]
    simpa [loadMore, loadMoreNext, setSearch, hg] using hreq

/-- Witness for C10: with a collection loaded for batman and the input
edited to superman, loadMore issues its request for superman page 2. -/
theorem search_uses_state_query_witness :
    let s : MState := ⟨"batman", [⟨"A", "2001", "tt1", "p"⟩], none, false, false, none, 1, some 50⟩
    (fetchMovies s 1 false .thrown).2 = some ⟨"batman", 1⟩ ∧
    (loadMore (setSearch s "superman") .thrown).2 = some ⟨"superman", 2⟩ := by
  intro s
  exact search_uses_state_query s 1 false .thrown "superman" (by decide) (by decide) (by decide)

end MovieNexus
